import Mathlib

/-!
Shallow embedding of the pybitly repository (a bit.ly HTTP API client).

The repository holds two parallel implementations:
  * `src/pybitly.py` — class `Api`, with envelope checking (`_checkResp`),
    singleton unwrapping and boolean extraction inside each method;
  * `src/pybitly/api.py` — class `BitlyApi`, whose `_get_resp` returns the
    `(RespStatus, data)` pair to the caller without any status check,
    payload extraction or unwrapping, together with `src/pybitly/errors.py`
    (`BitlyApiError` > `ArgumentError` > `ArgTypeError`).

Each Python method is translated statement by statement into a pure Lean
function.  The HTTP transport is an oracle `net : Request → Envelope`; the
requests a call issues are collected in order, so "no network request was
made" is `reqs = []`.  A raised exception is `Except.error`; a normal return
is `Except.ok`.  As no method assigns to any attribute of `self`, the state
of the client after the call is returned explicitly in `CallResult.self`.
-/

set_option autoImplicit false

namespace Pybitly

/-- A JSON value, as produced by the `json` decoder: the `data` part of a
response envelope.  Object fields keep their order. -/
inductive JsonVal where
  | null
  | num (n : Int)
  | str (s : String)
  | arr (elems : List JsonVal)
  | obj (fields : List (String × JsonVal))

/-- The uniform response envelope `{status_code, status_txt, data}` that the
JSON body of every bit.ly response decodes to. -/
structure Envelope where
  status_code : Int
  status_txt : String
  data : JsonVal

/-- Body of an HTTP request: `urllib2.opener.open(url)` sends a GET with no
body; `opener.open(url, data)` sends a POST whose form-encoded body carries
the given fields (the embedding keeps the fields themselves rather than the
percent-encoded string `urlencode` produces). -/
inductive Body where
  | none
  | form (fields : List (String × String))
  deriving DecidableEq

/-- An HTTP request as issued through the opener: the full URL and the body.
A request is a GET exactly when it has no body. -/
structure Request where
  url : String
  body : Body
  deriving DecidableEq

/-- A request is an HTTP GET iff no data was passed to `opener.open`. -/
def Request.isGET (r : Request) : Bool :=
  match r.body with
  | .none => true
  | .form _ => false

/-- The network oracle: what envelope the remote service answers to a
request.  Transport and JSON-parse failures are out of scope (the spec says
they propagate untranslated). -/
abbrev Net := Request → Envelope

/-- The universe of Python values a caller can pass for the optional
sequence parameters (`shortUrls`, `urlHashs`, `longUrls`): a string, an
integer, or a list of strings.  `None` is modelled by `Option.none` at the
call sites. -/
inductive PyObj where
  | pyStr (s : String)
  | pyInt (n : Int)
  | pyList (xs : List String)
  deriving DecidableEq

/-- `isinstance(obj, list)`. -/
def PyObj.isList : PyObj → Bool
  | .pyList _ => true
  | _ => false

/-- `Api._typeStr(obj)`, i.e. `str(type(obj)).split("'")[1]`, and equally
`obj_type(obj)` = `obj.__class__.__name__` from `api.py`: both produce the
bare type name. -/
def PyObj.typeStr : PyObj → String
  | .pyStr _ => "str"
  | .pyInt _ => "int"
  | .pyList _ => "list"

/-- A single-quote character as a string (used to build the error messages
verbatim). -/
def sq : String := String.singleton (Char.ofNat 39)

/-- The message `ArgTypeError.__init__` formats:
`Argument <arg> has type <given>, expected <expected>.` with each field
single-quoted (identical in `pybitly.py` and `pybitly/errors.py`). -/
def argTypeMsg (arg given expected : String) : String :=
  "Argument " ++ sq ++ arg ++ sq ++ " has type " ++ sq ++ given ++ sq ++
    ", expected " ++ sq ++ expected ++ sq ++ "."

/-- Exceptions raised by `pybitly.py`: `ApiError(value)` (the module's
generic error) and its subclass `ArgTypeError` (stored as its formatted
`value`).  `uncaught` stands for a Python builtin exception (KeyError,
TypeError) escaping the method. -/
inductive PyError where
  | apiError (value : String)
  | argTypeError (value : String)
  | uncaught (what : String)
  deriving DecidableEq

/-- Result of calling a method on a client of type `σ`: the field values of
`self` after the call, the network requests issued in order, and the normal
return value or the exception raised. -/
structure CallResult (σ ε α : Type) where
  self : σ
  reqs : List Request
  out : Except ε α

/-- The `Api` client of `pybitly.py`: `self.login`, `self.key`, and the
opener built by `build_opener()` (an opaque transport handle, modelled by an
identifier). -/
structure Api where
  login : String
  key : String
  opener : Nat
  deriving DecidableEq

namespace Api

/-- Class attribute `Api.baseURL`. -/
def baseURL : String := "http://api.bit.ly/v3"

/-- `Api._checkResp(data)`: raise `ApiError("Error <code>: <text>.")` when
`data['status_code'] != 200`, else do nothing. -/
def checkResp (data : Envelope) : Except PyError Unit :=
  if data.status_code ≠ 200 then
    .error (.apiError ("Error " ++ toString data.status_code ++ ": " ++
      data.status_txt ++ "."))
  else
    .ok ()

/-- `Api._multiArgs(argname, args)`: `''` for an empty list, otherwise
`'&' + '&'.join('<argname>=<arg>' for arg in args)`. -/
def multiArgs (argname : String) (args : List String) : String :=
  if args.length = 0 then ""
  else "&" ++ String.intercalate "&" (args.map (fun arg => argname ++ "=" ++ arg))

/-- The shared pattern for an optional sequence parameter: `None` yields the
empty fragment; a non-list raises `ArgTypeError(pname, typeStr, 'list')`;
a list is formatted by `_multiArgs`. -/
def seqArg (pname argname : String) : Option PyObj → Except PyError String
  | Option.none => .ok ""
  | some (.pyList xs) => .ok (multiArgs argname xs)
  | some o => .error (.argTypeError (argTypeMsg pname o.typeStr "list"))

/-- Python subscripting `v[k]` on the decoded JSON value: field lookup on a
dict, `KeyError` on a missing key, `TypeError` otherwise. -/
def pySubscript (v : JsonVal) (k : String) : Except PyError JsonVal :=
  match v with
  | .obj fs =>
    match fs.lookup k with
    | some x => .ok x
    | Option.none => .error (.uncaught ("KeyError: " ++ k))
  | _ => .error (.uncaught "TypeError: value is not subscriptable")

/-- The epilogue `if len(data) == 1: data = data[0]` of expand / clicks /
clicks_by_minute / info, on each shape of `data`: a one-element list yields
its element; any other list is unchanged; a one-key dict hits `KeyError`
(`data[0]` with string keys); other dicts are unchanged; a string is
unchanged (`s[0]` of a one-character string is that string); `len` of null
or a number raises `TypeError`. -/
def unwrapIfSingleton : JsonVal → Except PyError JsonVal
  | .arr [x] => .ok x
  | .arr xs => .ok (.arr xs)
  | .obj [f] => .error (.uncaught ("KeyError: 0 in dict with key " ++ f.1))
  | .obj fs => .ok (.obj fs)
  | .str s => .ok (.str s)
  | .null => .error (.uncaught "TypeError: object of type NoneType has no len()")
  | .num _ => .error (.uncaught "TypeError: object of type int has no len()")

/-- `Api.shorten(longUrl, domain="bit.ly")`.  The optional argument is
`none` when the caller omitted it, in which case the Python default
`"bit.ly"` applies. -/
def shorten (a : Api) (net : Net) (longUrl : String) (domainOpt : Option String) :
    CallResult Api PyError JsonVal :=
  let domain := domainOpt.getD "bit.ly"
  if domain ∉ (["bit.ly", "j.mp"] : List String) then
    ⟨a, [], .error (.apiError ("Unknown domain: " ++ domain ++ " (allowed: " ++
      sq ++ "bit.ly" ++ sq ++ " and " ++ sq ++ "j.mp" ++ sq ++ ")"))⟩
  else
    let url := baseURL ++ "/shorten?login=" ++ a.login ++ "&apiKey=" ++ a.key ++
      "&longUrl=" ++ longUrl ++ "&domain=" ++ domain
    let req : Request := ⟨url, .none⟩
    let resp := net req
    match checkResp resp with
    | .error e => ⟨a, [req], .error e⟩
    | .ok _ => ⟨a, [req], .ok resp.data⟩

/-- The common body of `expand`, `clicks`, `clicks_by_minute` and `info`
(they are verbatim copies of one another up to the endpoint name, which is
also the key extracted from `data`): return `{}` when both arguments are
`None`, type-check each present argument, build the URL, GET, check the
envelope, extract `data[<endpoint>]` and unwrap a singleton. -/
def multiOp (a : Api) (net : Net) (endpoint : String)
    (shortUrls urlHashs : Option PyObj) : CallResult Api PyError JsonVal :=
  if shortUrls.isNone ∧ urlHashs.isNone then ⟨a, [], .ok (.obj [])⟩
  else
    match seqArg "shortUrls" "shortUrl" shortUrls with
    | .error e => ⟨a, [], .error e⟩
    | .ok urlarg =>
      match seqArg "urlHashs" "hash" urlHashs with
      | .error e => ⟨a, [], .error e⟩
      | .ok hasharg =>
        let url := baseURL ++ "/" ++ endpoint ++ "?login=" ++ a.login ++
          "&apiKey=" ++ a.key ++ urlarg ++ hasharg
        let req : Request := ⟨url, .none⟩
        let resp := net req
        match checkResp resp with
        | .error e => ⟨a, [req], .error e⟩
        | .ok _ =>
          match pySubscript resp.data endpoint with
          | .error e => ⟨a, [req], .error e⟩
          | .ok d =>
            match unwrapIfSingleton d with
            | .error e => ⟨a, [req], .error e⟩
            | .ok d2 => ⟨a, [req], .ok d2⟩

/-- `Api.expand(shortUrls=None, urlHashs=None)`. -/
def expand (a : Api) (net : Net) (shortUrls urlHashs : Option PyObj) :
    CallResult Api PyError JsonVal :=
  multiOp a net "expand" shortUrls urlHashs

/-- `Api.clicks(shortUrls=None, urlHashs=None)`. -/
def clicks (a : Api) (net : Net) (shortUrls urlHashs : Option PyObj) :
    CallResult Api PyError JsonVal :=
  multiOp a net "clicks" shortUrls urlHashs

/-- `Api.clicks_by_minute(shortUrls=None, urlHashs=None)`. -/
def clicks_by_minute (a : Api) (net : Net) (shortUrls urlHashs : Option PyObj) :
    CallResult Api PyError JsonVal :=
  multiOp a net "clicks_by_minute" shortUrls urlHashs

/-- `Api.info(shortUrls=None, urlHashs=None)`. -/
def info (a : Api) (net : Net) (shortUrls urlHashs : Option PyObj) :
    CallResult Api PyError JsonVal :=
  multiOp a net "info" shortUrls urlHashs

/-- Python `v == 1` on a decoded JSON value and an integer literal. -/
def pyEqInt (v : JsonVal) (n : Int) : Bool :=
  match v with
  | .num m => m = n
  | _ => false

/-- `Api.validate(login, key)`: GET, check, return
`True if resp['data']['valid'] == 1 else False`. -/
def validate (a : Api) (net : Net) (login key : String) :
    CallResult Api PyError Bool :=
  let url := baseURL ++ "/validate?login=" ++ a.login ++ "&apiKey=" ++ a.key ++
    "&x_login=" ++ login ++ "&x_apiKey=" ++ key
  let req : Request := ⟨url, .none⟩
  let resp := net req
  match checkResp resp with
  | .error e => ⟨a, [req], .error e⟩
  | .ok _ =>
    match pySubscript resp.data "valid" with
    | .error e => ⟨a, [req], .error e⟩
    | .ok v => ⟨a, [req], .ok (pyEqInt v 1)⟩

/-- `Api.bitly_pro_domain(domain)`: GET, check, return
`True if resp['data']['bitly_pro_domain'] == 1 else False`. -/
def bitly_pro_domain (a : Api) (net : Net) (domain : String) :
    CallResult Api PyError Bool :=
  let url := baseURL ++ "/bitly_pro_domain?login=" ++ a.login ++ "&apiKey=" ++
    a.key ++ "&domain=" ++ domain
  let req : Request := ⟨url, .none⟩
  let resp := net req
  match checkResp resp with
  | .error e => ⟨a, [req], .error e⟩
  | .ok _ =>
    match pySubscript resp.data "bitly_pro_domain" with
    | .error e => ⟨a, [req], .error e⟩
    | .ok v => ⟨a, [req], .ok (pyEqInt v 1)⟩

/-- The common body of `referrers` and `countries` (verbatim copies up to
the endpoint): `{}` when both are `None`, `ApiError` when both are given,
otherwise GET with `shortUrl=` or `hash=` (the `urlHash` branch wins when
set, as its `if` comes second) and return `resp['data']`. -/
def oneOfOp (a : Api) (net : Net) (endpoint : String)
    (shortUrl urlHash : Option String) : CallResult Api PyError JsonVal :=
  if shortUrl.isNone ∧ urlHash.isNone then ⟨a, [], .ok (.obj [])⟩
  else if shortUrl.isSome ∧ urlHash.isSome then
    ⟨a, [], .error (.apiError "You can submit only one URL or hash, not both.")⟩
  else
    let url :=
      match urlHash with
      | some h => baseURL ++ "/" ++ endpoint ++ "?login=" ++ a.login ++
          "&apiKey=" ++ a.key ++ "&hash=" ++ h
      | Option.none =>
        match shortUrl with
        | some u => baseURL ++ "/" ++ endpoint ++ "?login=" ++ a.login ++
            "&apiKey=" ++ a.key ++ "&shortUrl=" ++ u
        | Option.none => ""
    let req : Request := ⟨url, .none⟩
    let resp := net req
    match checkResp resp with
    | .error e => ⟨a, [req], .error e⟩
    | .ok _ => ⟨a, [req], .ok resp.data⟩

/-- `Api.referrers(shortUrl=None, urlHash=None)`. -/
def referrers (a : Api) (net : Net) (shortUrl urlHash : Option String) :
    CallResult Api PyError JsonVal :=
  oneOfOp a net "referrers" shortUrl urlHash

/-- `Api.countries(shortUrl=None, urlHash=None)`. -/
def countries (a : Api) (net : Net) (shortUrl urlHash : Option String) :
    CallResult Api PyError JsonVal :=
  oneOfOp a net "countries" shortUrl urlHash

/-- `Api.lookup(longUrls=None)`: `{}` on `None`, `ArgTypeError` on a
non-list, otherwise GET and return `resp['data']['lookup']` (no singleton
unwrap here). -/
def lookup (a : Api) (net : Net) (longUrls : Option PyObj) :
    CallResult Api PyError JsonVal :=
  match longUrls with
  | Option.none => ⟨a, [], .ok (.obj [])⟩
  | some (.pyList xs) =>
    let urlarg := multiArgs "url" xs
    let url := baseURL ++ "/lookup?login=" ++ a.login ++ "&apiKey=" ++ a.key ++ urlarg
    let req : Request := ⟨url, .none⟩
    let resp := net req
    match checkResp resp with
    | .error e => ⟨a, [req], .error e⟩
    | .ok _ =>
      match pySubscript resp.data "lookup" with
      | .error e => ⟨a, [req], .error e⟩
      | .ok d => ⟨a, [req], .ok d⟩
  | some o => ⟨a, [], .error (.argTypeError (argTypeMsg "longUrls" o.typeStr "list"))⟩

/-- `Api.authenticate(login, password)`: POST to `/authenticate` with the
form-encoded body `{'login': self.login, 'apiKey': self.key, 'x_login':
login, 'x_password': password}`, check, return
`resp['data']['authenticate']`. -/
def authenticate (a : Api) (net : Net) (login password : String) :
    CallResult Api PyError JsonVal :=
  let url := baseURL ++ "/authenticate"
  let data : List (String × String) :=
    [("login", a.login), ("apiKey", a.key),
     ("x_login", login), ("x_password", password)]
  let req : Request := ⟨url, .form data⟩
  let resp := net req
  match checkResp resp with
  | .error e => ⟨a, [req], .error e⟩
  | .ok _ =>
    match pySubscript resp.data "authenticate" with
    | .error e => ⟨a, [req], .error e⟩
    | .ok d => ⟨a, [req], .ok d⟩

end Api

/-- Exceptions raised by `pybitly/api.py` through `pybitly/errors.py`:
`ArgumentError(value)` and its subclass `ArgTypeError` (stored as its
formatted `value`).  No code path in `api.py` raises the base
`BitlyApiError` itself, and no envelope check raises anything. -/
inductive BitlyError where
  | argumentError (value : String)
  | argTypeError (value : String)
  deriving DecidableEq

/-- Python `isinstance` on the errors hierarchy: `ArgTypeError` is a
subclass of `ArgumentError`, so every value of either constructor is an
`ArgumentError`. -/
def BitlyError.isArgumentError : BitlyError → Bool
  | .argumentError _ => true
  | .argTypeError _ => true

/-- `RespStatus(status_code, status_txt)` from `api.py`. -/
structure RespStatus where
  code : Int
  txt : String
  deriving DecidableEq

/-- `RespStatus.is_ok()`: `(self.code == 200) and (self.txt == 'OK')`.
Defined in `api.py` but called by none of its methods. -/
def RespStatus.is_ok (s : RespStatus) : Bool :=
  s.code = 200 ∧ s.txt = "OK"

/-- What a `BitlyApi` method returns normally: either the literal `{}` of
the both-arguments-`None` early return, or the `(RespStatus, data)` pair
produced by `_get_resp` (returned to the caller unexamined). -/
inductive BResult where
  | emptyDict
  | resp (status : RespStatus) (data : JsonVal)

/-- `ALLOWED_API_DOMAINS` from `api.py`. -/
def ALLOWED_API_DOMAINS : List String := ["bit.ly", "j.mp"]

/-- The `BitlyApi` client of `pybitly/api.py`: `self.login`, `self.key`,
and the opener built by `build_opener()`. -/
structure BitlyApi where
  login : String
  key : String
  opener : Nat
  deriving DecidableEq

namespace BitlyApi

/-- Class attribute `BitlyApi.base_url`. -/
def base_url : String := "http://api.bit.ly/v3"

/-- `BitlyApi._get_resp(url)`: GET the url, decode the JSON body, and
return `(RespStatus(status_code, status_txt), data)`.  No status check is
performed. -/
def get_resp (net : Net) (url : String) : RespStatus × JsonVal :=
  let resp := net ⟨url, .none⟩
  (⟨resp.status_code, resp.status_txt⟩, resp.data)

/-- `BitlyApi._multi_args(argname, args)`: `''` for a falsy (empty) list,
otherwise `'&' + '&'.join('<argname>=<arg>' for arg in args)`. -/
def multi_args (argname : String) (args : List String) : String :=
  if args.isEmpty then ""
  else "&" ++ String.intercalate "&" (args.map (fun arg => argname ++ "=" ++ arg))

/-- The shared pattern for an optional sequence parameter of `api.py`:
`None` yields the empty fragment; a non-list raises
`ArgTypeError(pname, obj_type(o), 'list')`; a list goes through
`_multi_args`. -/
def seqArg (pname argname : String) : Option PyObj → Except BitlyError String
  | Option.none => .ok ""
  | some (.pyList xs) => .ok (multi_args argname xs)
  | some o => .error (.argTypeError (argTypeMsg pname o.typeStr "list"))

/-- `BitlyApi.shorten(longUrl, domain=None)`: default the domain to
`'bit.ly'`, reject a domain outside `ALLOWED_API_DOMAINS` with
`ArgumentError`, then GET and return the `(status, data)` pair. -/
def shorten (b : BitlyApi) (net : Net) (longUrl : String)
    (domainOpt : Option String) : CallResult BitlyApi BitlyError BResult :=
  let domain := domainOpt.getD "bit.ly"
  if domain ∉ ALLOWED_API_DOMAINS then
    ⟨b, [], .error (.argumentError ("Unknown domain " ++ sq ++ domain ++ sq ++
      " (allowed: " ++ sq ++ "bit.ly" ++ sq ++ " and " ++ sq ++ "j.mp" ++ sq ++ ")"))⟩
  else
    let url := base_url ++ "/shorten?login=" ++ b.login ++ "&apiKey=" ++ b.key ++
      "&longUrl=" ++ longUrl ++ "&domain=" ++ domain
    let r := get_resp net url
    ⟨b, [⟨url, .none⟩], .ok (.resp r.1 r.2)⟩

/-- The common body of `BitlyApi.expand`, `clicks`, `clicks_by_minute` and
`info` (verbatim copies of one another up to the endpoint name): `{}` when
both arguments are `None`, type-check each present argument, build the URL,
and return the unexamined `(status, data)` pair from `_get_resp`. -/
def multiOp (b : BitlyApi) (net : Net) (endpoint : String)
    (shortUrls urlHashs : Option PyObj) : CallResult BitlyApi BitlyError BResult :=
  if shortUrls.isNone ∧ urlHashs.isNone then ⟨b, [], .ok .emptyDict⟩
  else
    match seqArg "shortUrls" "shortUrl" shortUrls with
    | .error e => ⟨b, [], .error e⟩
    | .ok urlarg =>
      match seqArg "urlHashs" "hash" urlHashs with
      | .error e => ⟨b, [], .error e⟩
      | .ok hasharg =>
        let url := base_url ++ "/" ++ endpoint ++ "?login=" ++ b.login ++
          "&apiKey=" ++ b.key ++ urlarg ++ hasharg
        let r := get_resp net url
        ⟨b, [⟨url, .none⟩], .ok (.resp r.1 r.2)⟩

/-- `BitlyApi.expand(shortUrls=None, urlHashs=None)`. -/
def expand (b : BitlyApi) (net : Net) (shortUrls urlHashs : Option PyObj) :
    CallResult BitlyApi BitlyError BResult :=
  multiOp b net "expand" shortUrls urlHashs

/-- `BitlyApi.clicks(shortUrls=None, urlHashs=None)`. -/
def clicks (b : BitlyApi) (net : Net) (shortUrls urlHashs : Option PyObj) :
    CallResult BitlyApi BitlyError BResult :=
  multiOp b net "clicks" shortUrls urlHashs

/-- `BitlyApi.clicks_by_minute(shortUrls=None, urlHashs=None)`. -/
def clicks_by_minute (b : BitlyApi) (net : Net) (shortUrls urlHashs : Option PyObj) :
    CallResult BitlyApi BitlyError BResult :=
  multiOp b net "clicks_by_minute" shortUrls urlHashs

/-- `BitlyApi.info(shortUrls=None, urlHashs=None)`. -/
def info (b : BitlyApi) (net : Net) (shortUrls urlHashs : Option PyObj) :
    CallResult BitlyApi BitlyError BResult :=
  multiOp b net "info" shortUrls urlHashs

/-- `BitlyApi.validate(login, key)`: GET and return the `(status, data)`
pair.  No boolean is extracted. -/
def validate (b : BitlyApi) (net : Net) (login key : String) :
    CallResult BitlyApi BitlyError BResult :=
  let url := base_url ++ "/validate?login=" ++ b.login ++ "&apiKey=" ++ b.key ++
    "&x_login=" ++ login ++ "&x_apiKey=" ++ key
  let r := get_resp net url
  ⟨b, [⟨url, .none⟩], .ok (.resp r.1 r.2)⟩

/-- The common body of `BitlyApi.referrers` and `countries`: `{}` when both
are `None`, `ArgumentError` when both are given, otherwise GET with
`shortUrl=` or `hash=` (the `urlHash` branch wins, its `if` coming second)
and return the `(status, data)` pair. -/
def oneOfOp (b : BitlyApi) (net : Net) (endpoint : String)
    (shortUrl urlHash : Option String) : CallResult BitlyApi BitlyError BResult :=
  if shortUrl.isNone ∧ urlHash.isNone then ⟨b, [], .ok .emptyDict⟩
  else if shortUrl.isSome ∧ urlHash.isSome then
    ⟨b, [], .error (.argumentError "You can submit only one URL or hash, not both.")⟩
  else
    let url :=
      match urlHash with
      | some h => base_url ++ "/" ++ endpoint ++ "?login=" ++ b.login ++
          "&apiKey=" ++ b.key ++ "&hash=" ++ h
      | Option.none =>
        match shortUrl with
        | some u => base_url ++ "/" ++ endpoint ++ "?login=" ++ b.login ++
            "&apiKey=" ++ b.key ++ "&shortUrl=" ++ u
        | Option.none => ""
    let r := get_resp net url
    ⟨b, [⟨url, .none⟩], .ok (.resp r.1 r.2)⟩

/-- `BitlyApi.referrers(shortUrl=None, urlHash=None)`. -/
def referrers (b : BitlyApi) (net : Net) (shortUrl urlHash : Option String) :
    CallResult BitlyApi BitlyError BResult :=
  oneOfOp b net "referrers" shortUrl urlHash

/-- `BitlyApi.countries(shortUrl=None, urlHash=None)`. -/
def countries (b : BitlyApi) (net : Net) (shortUrl urlHash : Option String) :
    CallResult BitlyApi BitlyError BResult :=
  oneOfOp b net "countries" shortUrl urlHash

/-- `BitlyApi.bitly_pro_domain(domain)`: GET and return the
`(status, data)` pair.  No boolean is extracted. -/
def bitly_pro_domain (b : BitlyApi) (net : Net) (domain : String) :
    CallResult BitlyApi BitlyError BResult :=
  let url := base_url ++ "/bitly_pro_domain?login=" ++ b.login ++ "&apiKey=" ++
    b.key ++ "&domain=" ++ domain
  let r := get_resp net url
  ⟨b, [⟨url, .none⟩], .ok (.resp r.1 r.2)⟩

/-- `BitlyApi.lookup(longUrls=None)`: `{}` on `None`, `ArgTypeError` on a
non-list, otherwise GET and return the `(status, data)` pair. -/
def lookup (b : BitlyApi) (net : Net) (longUrls : Option PyObj) :
    CallResult BitlyApi BitlyError BResult :=
  match longUrls with
  | Option.none => ⟨b, [], .ok .emptyDict⟩
  | some (.pyList xs) =>
    let urlarg := multi_args "url" xs
    let url := base_url ++ "/lookup?login=" ++ b.login ++ "&apiKey=" ++ b.key ++ urlarg
    let r := get_resp net url
    ⟨b, [⟨url, .none⟩], .ok (.resp r.1 r.2)⟩
  | some o => ⟨b, [], .error (.argTypeError (argTypeMsg "longUrls" o.typeStr "list"))⟩

/-- `BitlyApi.authenticate(login, password)`: builds the form-encoded
`data` dict but then calls `self._get_resp(url)`, which opens the url with
no body at all — so the request actually issued is a GET carrying none of
the four fields, and `data` is dead.  The embedding keeps the dead binding. -/
def authenticate (b : BitlyApi) (net : Net) (login password : String) :
    CallResult BitlyApi BitlyError BResult :=
  let url := base_url ++ "/authenticate"
  let _data : List (String × String) :=
    [("login", b.login), ("apiKey", b.key),
     ("x_login", login), ("x_password", password)]
  let r := get_resp net url
  ⟨b, [⟨url, .none⟩], .ok (.resp r.1 r.2)⟩

end BitlyApi

/-- The `ApiError` value `_checkResp` raises for a non-OK envelope. -/
def envErr (env : Envelope) : PyError :=
  .apiError ("Error " ++ toString env.status_code ++ ": " ++ env.status_txt ++ ".")

/-- A transport that answers every request with the same envelope (a mocked
remote service). -/
def constNet (env : Envelope) : Net := fun _ => env

/-- A mocked transport answering `{"status_code": 200, "status_txt": "OK",
"data": null}` to everything. -/
def netNull : Net := fun _ => ⟨200, "OK", .null⟩

/-- C1: as stated the claim fails on `pybitly/api.py`.  Against the mocked
envelope `{"status_code": 500, "status_txt": "INTERNAL_ERROR", "data":
null}`, `BitlyApi.validate` raises nothing and returns the status together
with the payload: no `ApiError` with message "Error 500: INTERNAL_ERROR."
is raised, and the envelope payload is returned to the caller. -/
theorem claim1_counterexample :
    (BitlyApi.validate ⟨"l", "k", 0⟩ (constNet ⟨500, "INTERNAL_ERROR", .null⟩) "u" "p").out
      = .ok (.resp ⟨500, "INTERNAL_ERROR"⟩ .null) := rfl

/-- C1 (amended to the `pybitly.py` variant): `_checkResp` is a no-op on a
status-200 envelope, and on any other envelope raises `ApiError` with the
message exactly `Error <code>: <text>.`; every operation of the `Api`
class propagates exactly that error when the mocked transport answers a
non-200 envelope. -/
theorem claim1_envelope_check (env : Envelope) :
    (env.status_code = 200 → Api.checkResp env = .ok ())
    ∧ (env.status_code ≠ 200 →
        Api.checkResp env = .error (envErr env)
        ∧ ∀ (a : Api) (u d lg pw : String) (us : List String),
            d ∈ (["bit.ly", "j.mp"] : List String) →
            (Api.shorten a (constNet env) u (some d)).out = .error (envErr env)
            ∧ (Api.expand a (constNet env) (some (.pyList us)) none).out = .error (envErr env)
            ∧ (Api.clicks a (constNet env) (some (.pyList us)) none).out = .error (envErr env)
            ∧ (Api.clicks_by_minute a (constNet env) (some (.pyList us)) none).out = .error (envErr env)
            ∧ (Api.info a (constNet env) (some (.pyList us)) none).out = .error (envErr env)
            ∧ (Api.validate a (constNet env) lg pw).out = .error (envErr env)
            ∧ (Api.bitly_pro_domain a (constNet env) d).out = .error (envErr env)
            ∧ (Api.referrers a (constNet env) (some u) none).out = .error (envErr env)
            ∧ (Api.countries a (constNet env) none (some u)).out = .error (envErr env)
            ∧ (Api.lookup a (constNet env) (some (.pyList us))).out = .error (envErr env)
            ∧ (Api.authenticate a (constNet env) lg pw).out = .error (envErr env)) := by
  constructor
  · intro h
    simp [Api.checkResp, h]
  · intro h
    constructor
    · simp [Api.checkResp, h, envErr]
    · intro a u d lg pw us hd
      refine ⟨?_, ?_, ?_, ?_, ?_, ?_, ?_, ?_, ?_, ?_, ?_⟩ <;>
        simp [Api.shorten, Api.expand, Api.clicks, Api.clicks_by_minute, Api.info,
          Api.validate, Api.bitly_pro_domain, Api.referrers, Api.countries,
          Api.lookup, Api.authenticate, Api.multiOp, Api.oneOfOp, Api.seqArg,
          Api.checkResp, constNet, envErr, h, hd]

/-- C1 witness: the amended claim at the mocked envelope
`{"status_code": 500, "status_txt": "INTERNAL_ERROR", "data": null}`. -/
theorem claim1_witness :
    Api.checkResp ⟨500, "INTERNAL_ERROR", .null⟩ = .error (.apiError "Error 500: INTERNAL_ERROR.")
    ∧ (Api.expand ⟨"me", "sec", 0⟩ (constNet ⟨500, "INTERNAL_ERROR", .null⟩)
        (some (.pyList ["http://bit.ly/a"])) none).out
      = .error (.apiError "Error 500: INTERNAL_ERROR.") := by
  have h := (claim1_envelope_check ⟨500, "INTERNAL_ERROR", .null⟩).2 (by decide)
  exact ⟨h.1, (h.2 ⟨"me", "sec", 0⟩ "u" "bit.ly" "lg" "pw" ["http://bit.ly/a"] (by decide)).2.1⟩

/-- C2: as stated the claim fails on `pybitly/api.py`.  `BitlyApi.expand`
on a successful envelope whose `expand` payload has exactly one element
does not return that element: it returns the whole `(status, data)` pair
with the one-element collection still wrapped inside `data`. -/
theorem claim2_counterexample :
    (BitlyApi.expand ⟨"l", "k", 0⟩
        (constNet ⟨200, "OK", .obj [("expand", .arr [.obj [("short_url", .str "http://bit.ly/abc"),
          ("long_url", .str "http://example.com")]])]⟩)
        (some (.pyList ["http://bit.ly/abc"])) none).out
      = .ok (.resp ⟨200, "OK"⟩ (.obj [("expand", .arr [.obj [("short_url", .str "http://bit.ly/abc"),
          ("long_url", .str "http://example.com")]])])) := rfl

/-- C2 (amended to the `pybitly.py` variant): for `expand`, `clicks`,
`clicks_by_minute` and `info` of the `Api` class, a status-200 envelope
whose payload collection has exactly one element yields that element
directly, and a payload collection of two or more elements is returned
unmodified. -/
theorem claim2_singleton_unwrap (a : Api) (us : List String) (x y : JsonVal)
    (rest : List JsonVal) :
    ((Api.expand a (constNet ⟨200, "OK", .obj [("expand", .arr [x])]⟩)
        (some (.pyList us)) none).out = .ok x)
    ∧ ((Api.expand a (constNet ⟨200, "OK", .obj [("expand", .arr (x :: y :: rest))]⟩)
        (some (.pyList us)) none).out = .ok (.arr (x :: y :: rest)))
    ∧ ((Api.clicks a (constNet ⟨200, "OK", .obj [("clicks", .arr [x])]⟩)
        (some (.pyList us)) none).out = .ok x)
    ∧ ((Api.clicks a (constNet ⟨200, "OK", .obj [("clicks", .arr (x :: y :: rest))]⟩)
        (some (.pyList us)) none).out = .ok (.arr (x :: y :: rest)))
    ∧ ((Api.clicks_by_minute a (constNet ⟨200, "OK", .obj [("clicks_by_minute", .arr [x])]⟩)
        (some (.pyList us)) none).out = .ok x)
    ∧ ((Api.clicks_by_minute a (constNet ⟨200, "OK", .obj [("clicks_by_minute", .arr (x :: y :: rest))]⟩)
        (some (.pyList us)) none).out = .ok (.arr (x :: y :: rest)))
    ∧ ((Api.info a (constNet ⟨200, "OK", .obj [("info", .arr [x])]⟩)
        (some (.pyList us)) none).out = .ok x)
    ∧ ((Api.info a (constNet ⟨200, "OK", .obj [("info", .arr (x :: y :: rest))]⟩)
        (some (.pyList us)) none).out = .ok (.arr (x :: y :: rest))) := by
  refine ⟨?_, ?_, ?_, ?_, ?_, ?_, ?_, ?_⟩ <;>
    simp [Api.expand, Api.clicks, Api.clicks_by_minute, Api.info, Api.multiOp,
      Api.seqArg, Api.checkResp, Api.pySubscript, List.lookup, Api.unwrapIfSingleton, constNet]

/-- C3: as stated the claim fails on `pybitly.py`.  `Api.referrers` with
both parameters raises the module's generic `ApiError` — `pybitly.py`
defines no `ArgumentError` class at all (its only refinement of `ApiError`
is `ArgTypeError`, which is not what is raised here). -/
theorem claim3_counterexample :
    Api.referrers ⟨"l", "k", 0⟩ netNull (some "http://bit.ly/a") (some "abc")
      = ⟨⟨"l", "k", 0⟩, [], .error (.apiError "You can submit only one URL or hash, not both.")⟩ := rfl

/-- C3 (amended): for `referrers` and `countries`, supplying both mutually
exclusive parameters raises an error before any network request —
`ArgumentError` in `pybitly/api.py`, but the generic `ApiError` in
`pybitly.py`; supplying neither returns an empty result with no network
request in both variants. -/
theorem claim3_mutually_exclusive (a : Api) (b : BitlyApi) (net : Net) (u hsh : String) :
    Api.referrers a net (some u) (some hsh)
        = ⟨a, [], .error (.apiError "You can submit only one URL or hash, not both.")⟩
    ∧ Api.referrers a net none none = ⟨a, [], .ok (.obj [])⟩
    ∧ Api.countries a net (some u) (some hsh)
        = ⟨a, [], .error (.apiError "You can submit only one URL or hash, not both.")⟩
    ∧ Api.countries a net none none = ⟨a, [], .ok (.obj [])⟩
    ∧ BitlyApi.referrers b net (some u) (some hsh)
        = ⟨b, [], .error (.argumentError "You can submit only one URL or hash, not both.")⟩
    ∧ BitlyApi.referrers b net none none = ⟨b, [], .ok .emptyDict⟩
    ∧ BitlyApi.countries b net (some u) (some hsh)
        = ⟨b, [], .error (.argumentError "You can submit only one URL or hash, not both.")⟩
    ∧ BitlyApi.countries b net none none = ⟨b, [], .ok .emptyDict⟩
    ∧ (BitlyError.argumentError "You can submit only one URL or hash, not both.").isArgumentError = true :=
  ⟨rfl, rfl, rfl, rfl, rfl, rfl, rfl, rfl, rfl⟩

/-- C4: for every sequence-taking operation of both classes, a supplied
non-list argument raises `ArgTypeError` whose message names the offending
parameter, its actual type and `list` as the expected type, and no network
request is issued (`reqs = []`). -/
theorem claim4_arg_type_error (a : Api) (b : BitlyApi) (net : Net) (o : PyObj)
    (ho : o.isList = false) (su : List String) :
    Api.expand a net (some o) none
        = ⟨a, [], .error (.argTypeError (argTypeMsg "shortUrls" o.typeStr "list"))⟩
    ∧ Api.expand a net (some (.pyList su)) (some o)
        = ⟨a, [], .error (.argTypeError (argTypeMsg "urlHashs" o.typeStr "list"))⟩
    ∧ Api.clicks a net (some o) none
        = ⟨a, [], .error (.argTypeError (argTypeMsg "shortUrls" o.typeStr "list"))⟩
    ∧ Api.clicks a net (some (.pyList su)) (some o)
        = ⟨a, [], .error (.argTypeError (argTypeMsg "urlHashs" o.typeStr "list"))⟩
    ∧ Api.clicks_by_minute a net (some o) none
        = ⟨a, [], .error (.argTypeError (argTypeMsg "shortUrls" o.typeStr "list"))⟩
    ∧ Api.clicks_by_minute a net (some (.pyList su)) (some o)
        = ⟨a, [], .error (.argTypeError (argTypeMsg "urlHashs" o.typeStr "list"))⟩
    ∧ Api.info a net (some o) none
        = ⟨a, [], .error (.argTypeError (argTypeMsg "shortUrls" o.typeStr "list"))⟩
    ∧ Api.info a net (some (.pyList su)) (some o)
        = ⟨a, [], .error (.argTypeError (argTypeMsg "urlHashs" o.typeStr "list"))⟩
    ∧ Api.lookup a net (some o)
        = ⟨a, [], .error (.argTypeError (argTypeMsg "longUrls" o.typeStr "list"))⟩
    ∧ BitlyApi.expand b net (some o) none
        = ⟨b, [], .error (.argTypeError (argTypeMsg "shortUrls" o.typeStr "list"))⟩
    ∧ BitlyApi.expand b net (some (.pyList su)) (some o)
        = ⟨b, [], .error (.argTypeError (argTypeMsg "urlHashs" o.typeStr "list"))⟩
    ∧ BitlyApi.clicks b net (some o) none
        = ⟨b, [], .error (.argTypeError (argTypeMsg "shortUrls" o.typeStr "list"))⟩
    ∧ BitlyApi.clicks b net (some (.pyList su)) (some o)
        = ⟨b, [], .error (.argTypeError (argTypeMsg "urlHashs" o.typeStr "list"))⟩
    ∧ BitlyApi.clicks_by_minute b net (some o) none
        = ⟨b, [], .error (.argTypeError (argTypeMsg "shortUrls" o.typeStr "list"))⟩
    ∧ BitlyApi.clicks_by_minute b net (some (.pyList su)) (some o)
        = ⟨b, [], .error (.argTypeError (argTypeMsg "urlHashs" o.typeStr "list"))⟩
    ∧ BitlyApi.info b net (some o) none
        = ⟨b, [], .error (.argTypeError (argTypeMsg "shortUrls" o.typeStr "list"))⟩
    ∧ BitlyApi.info b net (some (.pyList su)) (some o)
        = ⟨b, [], .error (.argTypeError (argTypeMsg "urlHashs" o.typeStr "list"))⟩
    ∧ BitlyApi.lookup b net (some o)
        = ⟨b, [], .error (.argTypeError (argTypeMsg "longUrls" o.typeStr "list"))⟩ := by
  cases o with
  | pyList xs => simp [PyObj.isList] at ho
  | pyStr s =>
    repeat' apply And.intro
    all_goals rfl
  | pyInt n =>
    repeat' apply And.intro
    all_goals rfl

/-- C4 witness: `expand` called with the single string
`"http://bit.ly/a"` instead of a list. -/
theorem claim4_witness :
    Api.expand ⟨"me", "sec", 0⟩ netNull (some (.pyStr "http://bit.ly/a")) none
      = ⟨⟨"me", "sec", 0⟩, [], .error (.argTypeError (argTypeMsg "shortUrls" "str" "list"))⟩ :=
  (claim4_arg_type_error ⟨"me", "sec", 0⟩ ⟨"l", "k", 0⟩ netNull
    (.pyStr "http://bit.ly/a") (by decide) []).1

/-- C5: as stated the claim fails on `pybitly.py`.  `Api.shorten` with the
unknown domain `evil.com` raises the generic `ApiError`, not an
`ArgumentError` (`pybitly.py` defines no such class). -/
theorem claim5_counterexample :
    Api.shorten ⟨"l", "k", 0⟩ netNull "http://example.com" (some "evil.com")
      = ⟨⟨"l", "k", 0⟩, [], .error (.apiError ("Unknown domain: evil.com (allowed: " ++
          sq ++ "bit.ly" ++ sq ++ " and " ++ sq ++ "j.mp" ++ sq ++ ")"))⟩ := rfl

/-- C5 (amended): a `shorten` domain outside the allowed set
`{"bit.ly", "j.mp"}` is rejected before any network request — with
`ArgumentError` in `pybitly/api.py` but with the generic `ApiError` in
`pybitly.py` (neither variant consults the Pro-domain check); an absent
domain argument defaults to `"bit.ly"` in both. -/
theorem claim5_shorten_domain (a : Api) (b : BitlyApi) (net : Net) (u d : String)
    (hd : d ∉ (["bit.ly", "j.mp"] : List String)) :
    Api.shorten a net u (some d)
        = ⟨a, [], .error (.apiError ("Unknown domain: " ++ d ++ " (allowed: " ++
            sq ++ "bit.ly" ++ sq ++ " and " ++ sq ++ "j.mp" ++ sq ++ ")"))⟩
    ∧ BitlyApi.shorten b net u (some d)
        = ⟨b, [], .error (.argumentError ("Unknown domain " ++ sq ++ d ++ sq ++
            " (allowed: " ++ sq ++ "bit.ly" ++ sq ++ " and " ++ sq ++ "j.mp" ++ sq ++ ")"))⟩
    ∧ (BitlyError.argumentError ("Unknown domain " ++ sq ++ d ++ sq ++
        " (allowed: " ++ sq ++ "bit.ly" ++ sq ++ " and " ++ sq ++ "j.mp" ++ sq ++ ")")).isArgumentError = true
    ∧ Api.shorten a net u none = Api.shorten a net u (some "bit.ly")
    ∧ BitlyApi.shorten b net u none = BitlyApi.shorten b net u (some "bit.ly") := by
  refine ⟨?_, ?_, rfl, rfl, rfl⟩
  · simp [Api.shorten, hd]
  · simp [BitlyApi.shorten, ALLOWED_API_DOMAINS, hd]

/-- C5 witness: the amended claim at domain `evil.com`. -/
theorem claim5_witness :
    BitlyApi.shorten ⟨"me", "sec", 0⟩ netNull "http://example.com" (some "evil.com")
      = ⟨⟨"me", "sec", 0⟩, [], .error (.argumentError ("Unknown domain " ++ sq ++ "evil.com" ++
          sq ++ " (allowed: " ++ sq ++ "bit.ly" ++ sq ++ " and " ++ sq ++ "j.mp" ++ sq ++ ")"))⟩
    ∧ Api.shorten ⟨"me", "sec", 0⟩ netNull "http://example.com" none
        = Api.shorten ⟨"me", "sec", 0⟩ netNull "http://example.com" (some "bit.ly") := by
  have h := claim5_shorten_domain ⟨"me", "sec", 0⟩ ⟨"me", "sec", 0⟩ netNull
    "http://example.com" "evil.com" (by decide)
  exact ⟨h.2.1, h.2.2.2.1⟩

/-- C6: `_multiArgs` / `_multi_args` return the empty string on an empty
value list, and on a non-empty list `v :: vs` return a leading `&` followed
by the `&`-joined `name=value` pairs with the values inserted verbatim; in
particular on `("hash", ["x", "y"])` both return `&hash=x&hash=y`. -/
theorem claim6_multi_value_param :
    (∀ name : String, Api.multiArgs name [] = "" ∧ BitlyApi.multi_args name [] = "")
    ∧ (∀ (name v : String) (vs : List String),
        Api.multiArgs name (v :: vs)
            = "&" ++ String.intercalate "&" ((v :: vs).map (fun x => name ++ "=" ++ x))
        ∧ BitlyApi.multi_args name (v :: vs) = Api.multiArgs name (v :: vs))
    ∧ Api.multiArgs "hash" ["x", "y"] = "&hash=x&hash=y"
    ∧ BitlyApi.multi_args "hash" ["x", "y"] = "&hash=x&hash=y" := by
  refine ⟨fun name => ⟨rfl, rfl⟩, fun name v vs => ⟨?_, ?_⟩, rfl, rfl⟩ <;>
    simp [Api.multiArgs, BitlyApi.multi_args]

/-- C7: at the failing input, `BitlyApi.authenticate` issues a bare GET to
`/authenticate` carrying none of the four form fields (the urlencoded
`data` dict it builds is dead), while `Api.authenticate` of `pybitly.py`
issues the POST whose form body carries `login`, `apiKey`, `x_login` and
`x_password` as the claim states. -/
theorem claim7_authenticate_post :
    (BitlyApi.authenticate ⟨"l", "k", 0⟩ netNull "user" "pass").reqs
        = [⟨"http://api.bit.ly/v3/authenticate", Body.none⟩]
    ∧ Request.isGET ⟨"http://api.bit.ly/v3/authenticate", Body.none⟩ = true
    ∧ (Api.authenticate ⟨"l", "k", 0⟩ netNull "user" "pass").reqs
        = [⟨"http://api.bit.ly/v3/authenticate",
            .form [("login", "l"), ("apiKey", "k"), ("x_login", "user"), ("x_password", "pass")]⟩] :=
  ⟨rfl, rfl, rfl⟩

/-- C8: as stated the claim fails on `pybitly/api.py`.  On a successful
envelope whose payload has `valid = 1`, `BitlyApi.validate` does not return
a boolean: it returns the `(status, data)` pair. -/
theorem claim8_counterexample :
    (BitlyApi.validate ⟨"l", "k", 0⟩ (constNet ⟨200, "OK", .obj [("valid", .num 1)]⟩) "u" "p").out
      = .ok (.resp ⟨200, "OK"⟩ (.obj [("valid", .num 1)])) := rfl

/-- C8 (amended to the `pybitly.py` variant): on a status-200 envelope,
`Api.validate` returns the boolean `data['valid'] == 1` and
`Api.bitly_pro_domain` the boolean `data['bitly_pro_domain'] == 1`, each
true exactly when the field equals the number 1. -/
theorem claim8_boolean_ops (a : Api) (lg ky d txt : String)
    (fv fp : List (String × JsonVal)) (v w : JsonVal)
    (hv : fv.lookup "valid" = some v)
    (hp : fp.lookup "bitly_pro_domain" = some w) :
    ((Api.validate a (constNet ⟨200, txt, .obj fv⟩) lg ky).out = .ok (Api.pyEqInt v 1))
    ∧ ((Api.bitly_pro_domain a (constNet ⟨200, txt, .obj fp⟩) d).out = .ok (Api.pyEqInt w 1))
    ∧ (Api.pyEqInt v 1 = true ↔ v = .num 1)
    ∧ (Api.pyEqInt w 1 = true ↔ w = .num 1) := by
  refine ⟨?_, ?_, ?_, ?_⟩
  · simp [Api.validate, Api.checkResp, Api.pySubscript, constNet, hv]
  · simp [Api.bitly_pro_domain, Api.checkResp, Api.pySubscript, constNet, hp]
  · cases v <;> simp [Api.pyEqInt]
  · cases w <;> simp [Api.pyEqInt]

/-- C8 witness: a payload with `valid = 1` yields `True`; a payload with
`bitly_pro_domain = 0` yields `False`. -/
theorem claim8_witness :
    ((Api.validate ⟨"me", "sec", 0⟩ (constNet ⟨200, "OK", .obj [("valid", .num 1)]⟩) "u" "p").out
      = .ok true)
    ∧ ((Api.bitly_pro_domain ⟨"me", "sec", 0⟩
        (constNet ⟨200, "OK", .obj [("bitly_pro_domain", .num 0)]⟩) "nyti.ms").out
      = .ok false) := by
  have h := claim8_boolean_ops ⟨"me", "sec", 0⟩ "u" "p" "nyti.ms" "OK"
    [("valid", .num 1)] [("bitly_pro_domain", .num 0)] (.num 1) (.num 0) rfl rfl
  exact ⟨h.1, h.2.1⟩

/-- C9: the client is immutable — every operation of both classes returns
the fields of `self` (login credential, API key, transport handle)
unchanged on every path, whether it returns normally or raises, and the
base URL is a class-level constant. -/
theorem claim9_client_immutable :
    (∀ (a : Api) (net : Net) (u : String) (d : Option String), (Api.shorten a net u d).self = a)
    ∧ (∀ (a : Api) (net : Net) (su uh : Option PyObj), (Api.expand a net su uh).self = a)
    ∧ (∀ (a : Api) (net : Net) (su uh : Option PyObj), (Api.clicks a net su uh).self = a)
    ∧ (∀ (a : Api) (net : Net) (su uh : Option PyObj), (Api.clicks_by_minute a net su uh).self = a)
    ∧ (∀ (a : Api) (net : Net) (su uh : Option PyObj), (Api.info a net su uh).self = a)
    ∧ (∀ (a : Api) (net : Net) (lg ky : String), (Api.validate a net lg ky).self = a)
    ∧ (∀ (a : Api) (net : Net) (su uh : Option String), (Api.referrers a net su uh).self = a)
    ∧ (∀ (a : Api) (net : Net) (su uh : Option String), (Api.countries a net su uh).self = a)
    ∧ (∀ (a : Api) (net : Net) (d : String), (Api.bitly_pro_domain a net d).self = a)
    ∧ (∀ (a : Api) (net : Net) (lu : Option PyObj), (Api.lookup a net lu).self = a)
    ∧ (∀ (a : Api) (net : Net) (lg pw : String), (Api.authenticate a net lg pw).self = a)
    ∧ (∀ (b : BitlyApi) (net : Net) (u : String) (d : Option String), (BitlyApi.shorten b net u d).self = b)
    ∧ (∀ (b : BitlyApi) (net : Net) (su uh : Option PyObj), (BitlyApi.expand b net su uh).self = b)
    ∧ (∀ (b : BitlyApi) (net : Net) (su uh : Option PyObj), (BitlyApi.clicks b net su uh).self = b)
    ∧ (∀ (b : BitlyApi) (net : Net) (su uh : Option PyObj), (BitlyApi.clicks_by_minute b net su uh).self = b)
    ∧ (∀ (b : BitlyApi) (net : Net) (su uh : Option PyObj), (BitlyApi.info b net su uh).self = b)
    ∧ (∀ (b : BitlyApi) (net : Net) (lg ky : String), (BitlyApi.validate b net lg ky).self = b)
    ∧ (∀ (b : BitlyApi) (net : Net) (su uh : Option String), (BitlyApi.referrers b net su uh).self = b)
    ∧ (∀ (b : BitlyApi) (net : Net) (su uh : Option String), (BitlyApi.countries b net su uh).self = b)
    ∧ (∀ (b : BitlyApi) (net : Net) (d : String), (BitlyApi.bitly_pro_domain b net d).self = b)
    ∧ (∀ (b : BitlyApi) (net : Net) (lu : Option PyObj), (BitlyApi.lookup b net lu).self = b)
    ∧ (∀ (b : BitlyApi) (net : Net) (lg pw : String), (BitlyApi.authenticate b net lg pw).self = b)
    ∧ Api.baseURL = "http://api.bit.ly/v3"
    ∧ BitlyApi.base_url = "http://api.bit.ly/v3" := by
  refine ⟨?_, ?_, ?_, ?_, ?_, ?_, ?_, ?_, ?_, ?_, ?_, ?_, ?_, ?_, ?_, ?_, ?_, ?_, ?_, ?_, ?_, ?_, rfl, rfl⟩ <;>
    · intros
      simp only [Api.shorten, Api.expand, Api.clicks, Api.clicks_by_minute, Api.info,
        Api.validate, Api.referrers, Api.countries, Api.bitly_pro_domain, Api.lookup,
        Api.authenticate, Api.multiOp, Api.oneOfOp,
        BitlyApi.shorten, BitlyApi.expand, BitlyApi.clicks, BitlyApi.clicks_by_minute,
        BitlyApi.info, BitlyApi.validate, BitlyApi.referrers, BitlyApi.countries,
        BitlyApi.bitly_pro_domain, BitlyApi.lookup, BitlyApi.authenticate, BitlyApi.multiOp,
        BitlyApi.oneOfOp]
      repeat' first
        | rfl
        | split

/-- C10: an empty list is not treated as an absent parameter — `expand`,
`clicks`, `clicks_by_minute` and `info` (in both classes) called with
`shortUrls = []` and `urlHashs` absent do not take the no-network
empty-result path: each issues exactly one GET whose URL carries only the
`login` and `apiKey` query parameters, with no `shortUrl=` or `hash=`
fragment at all. -/
theorem claim10_empty_list_not_absent (a : Api) (b : BitlyApi) (net : Net) :
    (Api.expand a net (some (.pyList [])) none).reqs
        = [⟨Api.baseURL ++ "/expand?login=" ++ a.login ++ "&apiKey=" ++ a.key, Body.none⟩]
    ∧ (Api.clicks a net (some (.pyList [])) none).reqs
        = [⟨Api.baseURL ++ "/clicks?login=" ++ a.login ++ "&apiKey=" ++ a.key, Body.none⟩]
    ∧ (Api.clicks_by_minute a net (some (.pyList [])) none).reqs
        = [⟨Api.baseURL ++ "/clicks_by_minute?login=" ++ a.login ++ "&apiKey=" ++ a.key, Body.none⟩]
    ∧ (Api.info a net (some (.pyList [])) none).reqs
        = [⟨Api.baseURL ++ "/info?login=" ++ a.login ++ "&apiKey=" ++ a.key, Body.none⟩]
    ∧ (BitlyApi.expand b net (some (.pyList [])) none).reqs
        = [⟨BitlyApi.base_url ++ "/expand?login=" ++ b.login ++ "&apiKey=" ++ b.key, Body.none⟩]
    ∧ (BitlyApi.clicks b net (some (.pyList [])) none).reqs
        = [⟨BitlyApi.base_url ++ "/clicks?login=" ++ b.login ++ "&apiKey=" ++ b.key, Body.none⟩]
    ∧ (BitlyApi.clicks_by_minute b net (some (.pyList [])) none).reqs
        = [⟨BitlyApi.base_url ++ "/clicks_by_minute?login=" ++ b.login ++ "&apiKey=" ++ b.key, Body.none⟩]
    ∧ (BitlyApi.info b net (some (.pyList [])) none).reqs
        = [⟨BitlyApi.base_url ++ "/info?login=" ++ b.login ++ "&apiKey=" ++ b.key, Body.none⟩] := by
  refine ⟨?_, ?_, ?_, ?_, ?_, ?_, ?_, ?_⟩ <;>
    · simp only [Api.expand, Api.clicks, Api.clicks_by_minute, Api.info, Api.multiOp,
        Api.seqArg, Api.multiArgs, BitlyApi.expand, BitlyApi.clicks,
        BitlyApi.clicks_by_minute, BitlyApi.info, BitlyApi.multiOp, BitlyApi.seqArg,
        BitlyApi.multi_args]
      repeat' first
        | split
        | dsimp only
      all_goals first
        | (exfalso; simp_all; done)
        | simp [Api.baseURL, BitlyApi.base_url]

end Pybitly
